import Mathlib

/-!
# Verification of the forta-node Fleet Supervisor and Inspection Scheduler

Shallow embedding of `src/services/containers/supervision.go` and
`src/services/inspector/inspector.go` from the `rexposadas/forta-node`
repository, together with proofs settling the frozen claims about them.

External collaborators (container runtime, message bus, RPC client,
`inspect.Inspect`, the backoff clock) are modelled as explicit oracle
parameters; every effect the code performs (runtime calls, bus
publications, log lines) is returned in the output so that the theorems
can count and compare them.
-/

namespace Forta

/-! ## Data model (supervision.go) -/

/-- An agent descriptor as carried in `messaging.AgentPayload`
(`config.AgentConfig`): identity and image. -/
structure AgentConfig where
  agentId : String
  image : String
deriving DecidableEq, Repr

/-- Modelled from the spec: the descriptor's derived container name is a
deterministic function of the agent ID (`config.AgentConfig.ContainerName`
is not among the modelled sources; the spec states only that it is a
deterministic derivation from the ID). -/
def AgentConfig.containerName (a : AgentConfig) : String :=
  String.append "forta-agent-" a.agentId

/-- A running container record as stored in `t.containers`
(`clients.DockerContainer`): the runtime-assigned ID and the name. -/
structure DockerContainer where
  id : String
  name : String
deriving DecidableEq, Repr

/-- Outcome of `client.AttachNetwork`: success, the distinguished
`clients.ErrAlreadyExistsInNetwork`, or any other error. -/
inductive AttachOutcome
  | ok
  | alreadyExists
  | failure (e : String)
deriving DecidableEq, Repr

/-- Oracle model of the container runtime client (`t.client`): the outcome
of each call, keyed by its arguments. -/
structure RuntimeModel where
  /-- `t.ensureLocalImage _ image _`: `none` means success. -/
  ensureImage : String → Option String
  /-- `client.CreatePublicNetwork ctx name`: network ID on success. -/
  createNetwork : String → Except String String
  /-- `client.StartContainer ctx {Name, Image, ..}`: container ID on success. -/
  startContainer : String → String → Except String String
  /-- `client.AttachNetwork ctx containerID networkID`. -/
  attachNetwork : String → String → AttachOutcome
  /-- `client.StopContainer ctx containerID`: `none` means success. -/
  stopContainer : String → Option String

/-- A call made to the container runtime client, in order. -/
inductive RtCall
  | ensureImage (image : String)
  | createNetwork (name : String)
  | startContainer (name : String) (image : String)
  | attachNetwork (containerID : String) (networkID : String)
  | stopContainer (containerID : String)
deriving DecidableEq, Repr

/-- A message published on the bus by the supervisor. -/
inductive BusMsg
  | running (batch : List AgentConfig)
  | stopped (batch : List AgentConfig)
deriving DecidableEq, Repr

/-- A log line emitted by either component (only the lines the claims
talk about are distinguished). -/
inductive LogEvent
  | alreadyRunning (name : String)
  | startFailed (name : String)
  | stopSkipped (name : String)
  | stoppedOk (name : String)
  | triggeringInspection (triggeredAt : Nat) (inspectingAt : Nat)
  | inspectionTriggered
  | alreadyBusy
deriving DecidableEq, Repr

/-- `getContainerUnsafe`: first container in `t.containers` with the given
name, if any. -/
def getContainerUnsafe (containers : List DockerContainer) (name : String) :
    Option DockerContainer :=
  containers.find? fun c => c.name == name

/-- Result of `startAgent`: the new `t.containers`, the runtime calls made,
and the returned error if any. -/
structure StartResult where
  containers : List DockerContainer
  calls : List RtCall
  err : Option String
deriving DecidableEq, Repr

/-- `startAgent`: ensure the image, create the private network, start the
container, attach the scanner and the JSON-RPC proxy to the network
(tolerating `ErrAlreadyExistsInNetwork`), then record the container.
Every error path returns before `addContainerUnsafe`, so the table is
unchanged on error. -/
def startAgent (rt : RuntimeModel) (scannerID jsonRpcID : String)
    (containers : List DockerContainer) (agent : AgentConfig) : StartResult :=
  let c1 := [RtCall.ensureImage agent.image]
  match rt.ensureImage agent.image with
  | some e => ⟨containers, c1, some e⟩
  | none =>
    let name := agent.containerName
    let c2 := c1 ++ [RtCall.createNetwork name]
    match rt.createNetwork name with
    | Except.error e => ⟨containers, c2, some e⟩
    | Except.ok nwID =>
      let c3 := c2 ++ [RtCall.startContainer name agent.image]
      match rt.startContainer name agent.image with
      | Except.error e => ⟨containers, c3, some e⟩
      | Except.ok cid =>
        -- `for _, containerID := range []string{scanner.ID, jsonRpc.ID}`
        let c4 := c3 ++ [RtCall.attachNetwork scannerID nwID]
        match rt.attachNetwork scannerID nwID with
        | AttachOutcome.failure e => ⟨containers, c4, some e⟩
        | _ =>
          let c5 := c4 ++ [RtCall.attachNetwork jsonRpcID nwID]
          match rt.attachNetwork jsonRpcID nwID with
          | AttachOutcome.failure e => ⟨containers, c5, some e⟩
          | _ => ⟨containers ++ [⟨cid, name⟩], c5, none⟩

/-- Output of `handleAgentRun` (the Go handler always returns a nil
error, so no error field is needed). -/
structure RunOutput where
  state : List DockerContainer
  calls : List RtCall
  msgs : List BusMsg
  logs : List LogEvent
deriving DecidableEq, Repr

/-- The loop body of `handleAgentRun`: for each descriptor, publish a
"running" status and skip if already in the table; otherwise start it,
logging and skipping the status on failure, publishing on success. -/
def handleAgentRunAux (rt : RuntimeModel) (scannerID jsonRpcID : String)
    (payload : List AgentConfig) (containers : List DockerContainer) :
    RunOutput :=
  match payload with
  | [] => ⟨containers, [], [], []⟩
  | agent :: rest =>
    if (getContainerUnsafe containers agent.containerName).isSome then
      let t := handleAgentRunAux rt scannerID jsonRpcID rest containers
      ⟨t.state, t.calls, BusMsg.running [agent] :: t.msgs,
        LogEvent.alreadyRunning agent.containerName :: t.logs⟩
    else
      let r := startAgent rt scannerID jsonRpcID containers agent
      match r.err with
      | some _ =>
        let t := handleAgentRunAux rt scannerID jsonRpcID rest containers
        ⟨t.state, r.calls ++ t.calls, t.msgs,
          LogEvent.startFailed agent.containerName :: t.logs⟩
      | none =>
        let t := handleAgentRunAux rt scannerID jsonRpcID rest r.containers
        ⟨t.state, r.calls ++ t.calls, BusMsg.running [agent] :: t.msgs, t.logs⟩

/-- `handleAgentRun` under the lock: process the batch, always returning
a nil error. -/
def handleAgentRun (rt : RuntimeModel) (scannerID jsonRpcID : String)
    (containers : List DockerContainer) (payload : List AgentConfig) :
    RunOutput :=
  handleAgentRunAux rt scannerID jsonRpcID payload containers

/-- Output of `handleAgentStop`. -/
structure StopOutput where
  state : List DockerContainer
  calls : List RtCall
  msgs : List BusMsg
  logs : List LogEvent
  err : Option String
deriving DecidableEq, Repr

/-- The loop of `handleAgentStop`: accumulate the IDs marked in the
`stopped` map, the runtime calls and log lines, returning early with an
error on the first failed `StopContainer` call. -/
def stopLoop (rt : RuntimeModel) (containers : List DockerContainer)
    (payload : List AgentConfig) :
    List String × List RtCall × List LogEvent × Option String :=
  match payload with
  | [] => ([], [], [], none)
  | agentCfg :: rest =>
    match getContainerUnsafe containers agentCfg.containerName with
    | none =>
      let t := stopLoop rt containers rest
      (t.1, t.2.1, LogEvent.stopSkipped agentCfg.containerName :: t.2.2.1, t.2.2.2)
    | some container =>
      match rt.stopContainer container.id with
      | some e =>
        ([], [RtCall.stopContainer container.id], [],
          some (String.append "failed to stop container: " e))
      | none =>
        let t := stopLoop rt containers rest
        (container.id :: t.1, RtCall.stopContainer container.id :: t.2.1,
          LogEvent.stoppedOk agentCfg.containerName :: t.2.2.1, t.2.2.2)

/-- `handleAgentStop` under the lock: stop every descriptor found in the
table, aborting the whole batch on the first stop failure (before any
table mutation); on full success remove all stopped IDs in one batch
update and publish the incoming payload on "agents:status:stopped" iff it
is non-empty. -/
def handleAgentStop (rt : RuntimeModel) (containers : List DockerContainer)
    (payload : List AgentConfig) : StopOutput :=
  let t := stopLoop rt containers payload
  match t.2.2.2 with
  | some e => ⟨containers, t.2.1, [], t.2.2.1, some e⟩
  | none =>
    let remaining := containers.filter fun c => !(t.1.contains c.id)
    let msgs := if payload.length > 0 then [BusMsg.stopped payload] else []
    ⟨remaining, t.2.1, msgs, t.2.2.1, none⟩

/-! ## Inspection Scheduler model (inspector.go)

Time is modelled in whole seconds (`time.Minute * 10` becomes `600`).
Go's `uint64` arithmetic is modelled on `Nat` with explicit wrapping at
`2 ^ 64`; `ins.inspectEvery` keeps its Go type `int`, modelled as `Int`,
and is converted with `uint64(..)` semantics at each use site, exactly as
in the source. A `%` whose right operand is zero panics in Go, so the
modelled handlers return a distinguished `panicked` outcome there. -/

/-- `const blockEventWaitTimeout = time.Minute * 10`, in seconds. -/
def blockEventWaitTimeout : Nat := 600

/-- Go's `uint64(i)` conversion of an `int` value. -/
def goUint64OfInt (i : Int) : Nat := (i % (2 : Int) ^ 64).toNat

/-- Go's `a % b` on `uint64`: panics (`none`) when `b = 0`. -/
def goUMod (a b : Nat) : Option Nat := if b = 0 then none else some (a % b)

/-- Go's `a - b` on `uint64` (wrapping). -/
def goU64Sub (a b : Nat) : Nat := (((a : Int) - (b : Int)) % (2 : Int) ^ 64).toNat

/-- The mutable state of an `Inspector` relevant to the claims:
the capacity-1 channel `inspectCh` (`none` = empty), the watchdog clock
`latestBlockEventTime`, the cadence `inspectEvery` (a Go `int`), and the
state of the `lastErr` health tracker (`none` = no error recorded). -/
structure InspectorState where
  inspectCh : Option Nat
  latestBlockEventTime : Nat
  inspectEvery : Int
  lastErr : Option String
deriving DecidableEq, Repr

/-- Outcome of one `handleScannerBlock` invocation: either the handler
returns (with the new state and its log lines) or it panics on a
mod-by-zero. -/
inductive ScanResult
  | panicked
  | done (s : InspectorState) (logs : List LogEvent)
deriving DecidableEq, Repr

/-- `handleScannerBlock`: always update the watchdog clock to now; then,
when the latest block is positive and an exact multiple of
`uint64(inspectEvery)`, compute `latest - uint64(inspectEvery)` and try a
non-blocking (`select`/`default`) push onto `inspectCh`, logging
"already busy" and dropping the value when the slot is full. -/
def handleScannerBlock (now latestBlockInput : Nat) (s : InspectorState) :
    ScanResult :=
  let s1 := { s with latestBlockEventTime := now }
  if latestBlockInput > 0 then
    match goUMod latestBlockInput (goUint64OfInt s.inspectEvery) with
    | none => ScanResult.panicked
    | some r =>
      if r = 0 then
        let inspectionBlockNum :=
          goU64Sub latestBlockInput (goUint64OfInt s.inspectEvery)
        match s1.inspectCh with
        | none =>
          ScanResult.done { s1 with inspectCh := some inspectionBlockNum }
            [LogEvent.triggeringInspection latestBlockInput inspectionBlockNum,
              LogEvent.inspectionTriggered]
        | some _ =>
          ScanResult.done s1
            [LogEvent.triggeringInspection latestBlockInput inspectionBlockNum,
              LogEvent.alreadyBusy]
      else ScanResult.done s1 []
  else ScanResult.done s1 []

/-- Outcome of one fired tick of `inspectionTimeoutWorker`: the tick body
either completes, or is stuck on a plain (blocking) channel send of the
given value because the capacity-1 channel is already full, or panics on
a mod-by-zero. -/
inductive TickResult
  | panicked
  | blocked (pending : Nat)
  | done (s : InspectorState)
deriving DecidableEq, Repr

/-- The plain Go channel send `ins.inspectCh <- v` of the watchdog: it
fills an empty slot and blocks on a full one (there is no
`select`/`default` around these sends in the source). -/
def blockingSend (s : InspectorState) (v : Nat) : TickResult :=
  match s.inspectCh with
  | none => TickResult.done { s with inspectCh := some v }
  | some _ => TickResult.blocked v

/-- One fired tick of `inspectionTimeoutWorker` (`case <-t.C`): when more
than 10 minutes have passed since the last block event, dial the chain
RPC (outcome `dial`) and read the current block number (outcome
`readBlock`); on either failure push `0`, on success push the retrieved
block number when it is a multiple of `uint64(inspectEvery)`. All three
pushes are plain blocking sends. -/
def watchdogTick (now : Nat) (dial : Except String Unit)
    (readBlock : Except String Nat) (s : InspectorState) : TickResult :=
  if s.latestBlockEventTime + blockEventWaitTimeout < now then
    match dial with
    | Except.error _ => blockingSend s 0
    | Except.ok _ =>
      match readBlock with
      | Except.error _ => blockingSend s 0
      | Except.ok blockNum =>
        match goUMod blockNum (goUint64OfInt s.inspectEvery) with
        | none => TickResult.panicked
        | some r => if r = 0 then blockingSend s blockNum else TickResult.done s
  else TickResult.done s

/-! ### Inspection worker and retry policy

`inspect.Inspect` is an external collaborator: it is modelled as an oracle
`routine` giving, for the drained block number and the attempt index, the
structured results and the optional error of that attempt.
`backoff.Retry` with the source's `ExponentialBackOff` (initial interval
3s, max interval 30s, `MaxElapsedTime` 5 minutes) runs the first attempt
unconditionally and, after each failed attempt, asks the backoff policy
whether the elapsed-time ceiling still permits another attempt; the
intervals are randomized, so that decision is modelled as an oracle
`allow : Nat → Bool` (`allow n` = the 5-minute ceiling has not elapsed
after the `n`-th failed attempt). `fuel` bounds the recursion. -/

/-- Results and error of one `inspect.Inspect` attempt. -/
structure InspectOutcome where
  results : String
  error : Option String
deriving DecidableEq, Repr

/-- `backoff.Retry` around `runInspection`: each attempt first publishes
its results on "inspection:done" (the publication in `runInspection`
happens before the error check), then stops on success or when the
policy refuses a further attempt. Returns the list of published results
in order and the terminal error, if any. -/
def backoffRetry (op : Nat → InspectOutcome) (allow : Nat → Bool)
    (n : Nat) : Nat → List String × Option String
  | 0 => ([(op n).results], (op n).error)
  | fuel + 1 =>
    let o := op n
    match o.error with
    | none => ([o.results], none)
    | some e =>
      if allow n then
        let t := backoffRetry op allow (n + 1) fuel
        (o.results :: t.1, t.2)
      else ([o.results], some e)

/-- One iteration of the worker goroutine in `Start`: block until
`inspectCh` holds a value (`none` when it is empty and the worker would
wait), drain it, and run the retry loop on it. On terminal failure the
error is only logged ("finally failed to complete inspection") — the
value is not re-queued and `ins.lastErr` is not touched anywhere in the
source. Returns the state after the iteration, the publications made and
the terminal error. -/
def workerIteration (routine : Nat → Nat → InspectOutcome)
    (allow : Nat → Bool) (fuel : Nat) (s : InspectorState) :
    Option (InspectorState × List String × Option String) :=
  match s.inspectCh with
  | none => none
  | some blockNum =>
    let t := backoffRetry (routine blockNum) allow 0 fuel
    some ({ s with inspectCh := none }, t.1, t.2)

/-- `Health`: the inspector's health report is the single "last-error"
slot of the `lastErr` tracker. -/
def healthReports (s : InspectorState) : List (String × Option String) :=
  [("last-error", s.lastErr)]

/-! ## Concrete fixtures shared by witnesses and counterexamples -/

/-- A runtime on which every call succeeds. -/
def rtOk : RuntimeModel where
  ensureImage := fun _ => none
  createNetwork := fun n => Except.ok (String.append "nw-" n)
  startContainer := fun n _ => Except.ok (String.append "id-" n)
  attachNetwork := fun _ _ => AttachOutcome.ok
  stopContainer := fun _ => none

/-- Like `rtOk` but `StopContainer` fails for container ID "idA". -/
def rtStopFailA : RuntimeModel :=
  { rtOk with stopContainer := fun cid => if cid = "idA" then some "boom" else none }

/-- Like `rtOk` but `StopContainer` fails for container ID "idB". -/
def rtStopFailB : RuntimeModel :=
  { rtOk with stopContainer := fun cid => if cid = "idB" then some "boom" else none }

def agA : AgentConfig := ⟨"a", "imgA"⟩

def agB : AgentConfig := ⟨"b", "imgB"⟩

/-- A fleet table holding running records for both sample agents. -/
def tableAB : List DockerContainer :=
  [⟨"idA", agA.containerName⟩, ⟨"idB", agB.containerName⟩]

/-- An inspection routine that fails on every attempt. -/
def allFailRoutine : Nat → Nat → InspectOutcome :=
  fun _ _ => ⟨"partial results", some "inspection failed"⟩

/-- An inspection routine that fails on the first two attempts and
succeeds on the third. -/
def failFailOkRoutine : Nat → Nat → InspectOutcome := fun _ n =>
  if n = 0 then ⟨"results of attempt 0", some "attempt 0 failed"⟩
  else if n = 1 then ⟨"results of attempt 1", some "attempt 1 failed"⟩
  else ⟨"successful results", none⟩

/-! ## C5: a stop failure aborts the batch -/

/-- C5 (confirmed): for a stop batch `[a, b]` with both agents recorded in
the table, when the runtime stop call for `a` fails the handler returns
the error, `b` is not processed (the only runtime call is the stop of
`a`'s container), the table is unchanged and nothing is published. -/
theorem c5_stop_failure_aborts_batch (rt : RuntimeModel)
    (cs : List DockerContainer) (a b : AgentConfig)
    (ca cb : DockerContainer) (e : String)
    (ha : getContainerUnsafe cs a.containerName = some ca)
    (hb : getContainerUnsafe cs b.containerName = some cb)
    (hfail : rt.stopContainer ca.id = some e) :
    handleAgentStop rt cs [a, b] =
      ⟨cs, [RtCall.stopContainer ca.id], [], [],
        some (String.append "failed to stop container: " e)⟩ := by
  simp [handleAgentStop, stopLoop, ha, hfail]

/-- Witness for C5 at a concrete input: stopping `[agA, agB]` when the
runtime fails to stop `agA`'s container. -/
theorem c5_stop_failure_aborts_batch_witness :
    handleAgentStop rtStopFailA tableAB [agA, agB] =
      ⟨tableAB, [RtCall.stopContainer "idA"], [], [],
        some (String.append "failed to stop container: " "boom")⟩ :=
  c5_stop_failure_aborts_batch rtStopFailA tableAB agA agB
    ⟨"idA", agA.containerName⟩ ⟨"idB", agB.containerName⟩ "boom"
    (by decide) (by decide) (by decide)

/-! ## C9: on error the table is exactly the pre-request table -/

/-- C9 (confirmed): whenever `handleAgentStop` returns an error the table
is left exactly as before the request and nothing is published; in
particular for a batch `[a, b]` where `a`'s stop succeeded and `b`'s stop
failed, the runtime was asked to stop both containers, yet both records —
including `a`'s, whose container the runtime has in fact stopped — are
still in the table, because removal happens in one batch update only
after every stop succeeded. -/
theorem c9_stop_error_leaves_table_unchanged (rt : RuntimeModel)
    (cs : List DockerContainer) (payload : List AgentConfig) :
    ((handleAgentStop rt cs payload).err.isSome →
      (handleAgentStop rt cs payload).state = cs
      ∧ (handleAgentStop rt cs payload).msgs = [])
    ∧ (∀ a b ca cb e, payload = [a, b] →
        getContainerUnsafe cs a.containerName = some ca →
        getContainerUnsafe cs b.containerName = some cb →
        rt.stopContainer ca.id = none →
        rt.stopContainer cb.id = some e →
        handleAgentStop rt cs payload =
          ⟨cs, [RtCall.stopContainer ca.id, RtCall.stopContainer cb.id], [],
            [LogEvent.stoppedOk a.containerName],
            some (String.append "failed to stop container: " e)⟩
        ∧ ca ∈ cs) := by
  constructor
  · intro herr
    cases h : (stopLoop rt cs payload).2.2.2 with
    | none => exfalso; simp [handleAgentStop, h] at herr
    | some e => simp [handleAgentStop, h]
  · intro a b ca cb e hp ha hb hoka hfailb
    subst hp
    constructor
    · simp [handleAgentStop, stopLoop, ha, hb, hoka, hfailb]
    · exact List.mem_of_find?_eq_some ha

/-- Witness for C9 at a concrete input: batch `[agA, agB]`, `agA`'s stop
succeeds, `agB`'s stop fails; both records remain. -/
theorem c9_stop_error_leaves_table_unchanged_witness :
    (handleAgentStop rtStopFailB tableAB [agA, agB] =
      ⟨tableAB, [RtCall.stopContainer "idA", RtCall.stopContainer "idB"], [],
        [LogEvent.stoppedOk agA.containerName],
        some (String.append "failed to stop container: " "boom")⟩
      ∧ (⟨"idA", agA.containerName⟩ : DockerContainer) ∈ tableAB) :=
  (c9_stop_error_leaves_table_unchanged rtStopFailB tableAB [agA, agB]).2
    agA agB ⟨"idA", agA.containerName⟩ ⟨"idB", agB.containerName⟩ "boom"
    rfl (by decide) (by decide) (by decide) (by decide)

/-! ## C3: the terminal inspection error is not recorded in the tracker -/

/-- C3 (code bug): when the retry policy exhausts (every attempt of the
routine fails and the backoff refuses further attempts), the worker only
logs the terminal error: the drained request is not re-queued
(`inspectCh` ends empty), but — contrary to the claim and to the evident
purpose of the `lastErr` field — nothing in the source ever records the
error in the tracker, so `Health` still reports an empty "last-error"
slot instead of the terminal error. -/
theorem c3_terminal_error_not_recorded_in_health :
    workerIteration allFailRoutine (fun _ => false) 5
        ⟨some 0, 0, 10, none⟩ =
      some (⟨none, 0, 10, none⟩, ["partial results"], some "inspection failed")
    ∧ healthReports ⟨none, 0, 10, none⟩ = [("last-error", none)]
    ∧ ("last-error", some "inspection failed") ∉
        healthReports ⟨none, 0, 10, none⟩ := by
  refine ⟨rfl, rfl, ?_⟩
  decide

/-! ## C2: the watchdog pushes are blocking sends, not drop-if-busy -/

/-- C2 (counterexample): a stalled watchdog tick (clock 0, now 601 > 600)
whose RPC dial fails, with the pending slot already holding a value,
blocks on its plain channel send of block 0; it does not complete with
the value dropped and the slot unchanged, as the claim states. -/
theorem c2_watchdog_push_drop_counterexample :
    watchdogTick 601 (Except.error "dial failed") (Except.error "read failed")
        ⟨some 5, 0, 10, none⟩ = TickResult.blocked 0
    ∧ watchdogTick 601 (Except.error "dial failed") (Except.error "read failed")
        ⟨some 5, 0, 10, none⟩ ≠
      TickResult.done ⟨some 5, 0, 10, none⟩ := by
  refine ⟨rfl, ?_⟩
  decide

/-- C2 (amended): the watchdog's pushes onto the pending slot are plain
blocking channel sends. Whenever a stalled tick decides to push (block 0
on a dial or block-read failure, or the retrieved block number when it is
a multiple of the cadence) while the slot already holds a value, the tick
blocks on the send instead of dropping the value; only the block-progress
handler uses a non-blocking drop-if-busy push. -/
theorem c2_watchdog_push_blocking (s : InspectorState) (now : Nat)
    (dialErr readErr : String) (anyRead : Except String Nat) (b v : Nat)
    (hstall : s.latestBlockEventTime + blockEventWaitTimeout < now)
    (hfull : s.inspectCh = some v) :
    watchdogTick now (Except.error dialErr) anyRead s = TickResult.blocked 0
    ∧ watchdogTick now (Except.ok ()) (Except.error readErr) s =
        TickResult.blocked 0
    ∧ (goUint64OfInt s.inspectEvery ≠ 0 →
        b % goUint64OfInt s.inspectEvery = 0 →
        watchdogTick now (Except.ok ()) (Except.ok b) s =
          TickResult.blocked b) := by
  refine ⟨?_, ?_, ?_⟩
  · simp [watchdogTick, if_pos hstall, blockingSend, hfull]
  · simp [watchdogTick, if_pos hstall, blockingSend, hfull]
  · intro hne hmod
    simp [watchdogTick, if_pos hstall, goUMod, hne, hmod, blockingSend, hfull]

/-- Witness for the amended C2 at a concrete input: slot full with value
5, clock stalled, cadence 10, retrieved block 20. -/
theorem c2_watchdog_push_blocking_witness :
    watchdogTick 601 (Except.error "d") (Except.error "r")
        ⟨some 5, 0, 10, none⟩ = TickResult.blocked 0
    ∧ watchdogTick 601 (Except.ok ()) (Except.error "r")
        ⟨some 5, 0, 10, none⟩ = TickResult.blocked 0
    ∧ (goUint64OfInt (10 : Int) ≠ 0 → 20 % goUint64OfInt (10 : Int) = 0 →
        watchdogTick 601 (Except.ok ()) (Except.ok 20)
          ⟨some 5, 0, 10, none⟩ = TickResult.blocked 20) :=
  c2_watchdog_push_blocking ⟨some 5, 0, 10, none⟩ 601 "d" "r"
    (Except.error "r") 20 5 (by decide) rfl

/-! ## C1: every attempt publishes, so the claimed counts are wrong -/

/-- C1 (counterexample): `runInspection` publishes the inspection results
on "inspection:done" on every attempt, before the error check. Draining
block 90 with a routine that fails twice and then succeeds publishes
three messages (the claim says exactly one), and draining block 90 with a
routine that fails on its only permitted attempt publishes one message
(the claim says zero). -/
theorem c1_publication_count_counterexample :
    workerIteration failFailOkRoutine (fun _ => true) 10
        ⟨some 90, 0, 10, none⟩ =
      some (⟨none, 0, 10, none⟩,
        ["results of attempt 0", "results of attempt 1", "successful results"],
        none)
    ∧ ["results of attempt 0", "results of attempt 1",
        "successful results"].length ≠ 1
    ∧ workerIteration allFailRoutine (fun _ => false) 10
        ⟨some 90, 0, 10, none⟩ =
      some (⟨none, 0, 10, none⟩, ["partial results"], some "inspection failed")
    ∧ ["partial results"].length ≠ 0 := by
  exact ⟨rfl, by decide, rfl, by decide⟩

/-- Every retry run publishes at least one message: the first attempt is
unconditional and publishes before its error is examined. -/
theorem backoffRetry_length_pos (op : Nat → InspectOutcome)
    (allow : Nat → Bool) :
    ∀ (fuel n : Nat), 1 ≤ (backoffRetry op allow n fuel).1.length := by
  intro fuel
  induction fuel with
  | zero => intro n; simp [backoffRetry]
  | succ f ih =>
    intro n
    simp only [backoffRetry]
    cases h : (op n).error with
    | none => simp
    | some e =>
      by_cases ha : allow n
      · simp [ha]
      · simp [ha]

/-- A successful attempt ends the retry run at once, publishing exactly
its own results. -/
theorem backoffRetry_success (op : Nat → InspectOutcome) (allow : Nat → Bool)
    (n : Nat) (hok : (op n).error = none) :
    ∀ fuel, backoffRetry op allow n fuel = ([(op n).results], none) := by
  intro fuel
  cases fuel with
  | zero => simp [backoffRetry, hok]
  | succ f => simp [backoffRetry, hok]

/-- When every attempt fails, the retry run ends with a terminal error. -/
theorem backoffRetry_all_fail (op : Nat → InspectOutcome) (allow : Nat → Bool)
    (hfail : ∀ m, (op m).error.isSome) :
    ∀ (fuel n : Nat), (backoffRetry op allow n fuel).2.isSome := by
  intro fuel
  induction fuel with
  | zero => intro n; simpa [backoffRetry] using hfail n
  | succ f ih =>
    intro n
    obtain ⟨e, he⟩ := Option.isSome_iff_exists.mp (hfail n)
    simp only [backoffRetry, he]
    by_cases ha : allow n
    · simpa [ha] using ih (n + 1)
    · simp [ha]

/-- C1 (amended): for every request drained from the pending slot, each
attempt of the inspection routine publishes exactly one "inspection:done"
message carrying that attempt's results. Hence at least one message is
always published; a routine failing on the first two attempts and
succeeding on the third within the ceiling yields exactly three messages,
the third carrying the successful result; and a routine failing on every
attempt until the ceiling elapses yields a terminal error and at least
one publication (never zero). -/
theorem c1_amended_one_publication_per_attempt
    (routine : Nat → Nat → InspectOutcome) (allow : Nat → Bool)
    (fuel blockNum : Nat) (s : InspectorState)
    (hch : s.inspectCh = some blockNum) :
    (∀ s2 pubs err, workerIteration routine allow fuel s = some (s2, pubs, err) →
      1 ≤ pubs.length)
    ∧ ((routine blockNum 0).error.isSome → (routine blockNum 1).error.isSome →
        (routine blockNum 2).error = none → allow 0 = true → allow 1 = true →
        2 ≤ fuel →
        workerIteration routine allow fuel s =
          some ({ s with inspectCh := none },
            [(routine blockNum 0).results, (routine blockNum 1).results,
              (routine blockNum 2).results], none))
    ∧ ((∀ m, (routine blockNum m).error.isSome) →
        ∃ e pubs, workerIteration routine allow fuel s =
          some ({ s with inspectCh := none }, pubs, some e)
          ∧ 1 ≤ pubs.length) := by
  refine ⟨?_, ?_, ?_⟩
  · intro s2 pubs err h
    simp only [workerIteration, hch, Option.some.injEq, Prod.mk.injEq] at h
    obtain ⟨h1, h2, h3⟩ := h
    rw [← h2]
    exact backoffRetry_length_pos (routine blockNum) allow fuel 0
  · intro h0 h1 h2 ha0 ha1 hfuel
    obtain ⟨f, rfl⟩ : ∃ f, fuel = f + 2 := ⟨fuel - 2, by omega⟩
    obtain ⟨e0, he0⟩ := Option.isSome_iff_exists.mp h0
    obtain ⟨e1, he1⟩ := Option.isSome_iff_exists.mp h1
    simp only [workerIteration, hch]
    have hstep2 := backoffRetry_success (routine blockNum) allow 2 h2 f
    simp [backoffRetry, he0, he1, ha0, ha1, hstep2]
  · intro hfail
    have hlen := backoffRetry_length_pos (routine blockNum) allow fuel 0
    have herr := backoffRetry_all_fail (routine blockNum) allow hfail fuel 0
    obtain ⟨e, he⟩ := Option.isSome_iff_exists.mp herr
    refine ⟨e, (backoffRetry (routine blockNum) allow 0 fuel).1, ?_, hlen⟩
    simp only [workerIteration, hch, he]

/-- Witness for the amended C1 at a concrete input: slot holding block
90, the fail-fail-success routine, a permissive ceiling and fuel 10. -/
theorem c1_amended_one_publication_per_attempt_witness :
    (workerIteration failFailOkRoutine (fun _ => true) 10
        ⟨some 90, 0, 10, none⟩ =
      some (⟨none, 0, 10, none⟩,
        [(failFailOkRoutine 90 0).results, (failFailOkRoutine 90 1).results,
          (failFailOkRoutine 90 2).results], none)) :=
  (c1_amended_one_publication_per_attempt failFailOkRoutine (fun _ => true)
      10 90 ⟨some 90, 0, 10, none⟩ rfl).2.1
    (by decide) (by decide) (by decide) rfl rfl (by decide)

/-! ## C7: cadence arithmetic of the block-progress handler -/

/-- `uint64(c)` is `c.toNat` for an in-range positive Go `int`. -/
theorem goUint64OfInt_small (c : Int) (h1 : 0 ≤ c) (h2 : c < 2 ^ 64) :
    goUint64OfInt c = c.toNat := by
  unfold goUint64OfInt
  rw [Int.emod_eq_of_lt h1 h2]

/-- `uint64` subtraction does not wrap when the subtrahend is no larger. -/
theorem goU64Sub_no_wrap (a b : Nat) (hle : b ≤ a) (ha : a < 2 ^ 64) :
    goU64Sub a b = a - b := by
  unfold goU64Sub
  rw [Int.emod_eq_of_lt (by omega) (by omega)]
  omega

/-- C7 (confirmed): for a block-progress signal carrying latest block `B`
with configured cadence `c > 0` (an in-range Go `int`), the handler
always sets the watchdog clock to now; when `B > 0` and `B` is an exact
multiple of the cadence it attempts to enqueue exactly `B - c` (filling
an empty slot, dropping with "already busy" when full); otherwise nothing
is enqueued. -/
theorem c7_scanner_block_cadence (s : InspectorState)
    (now latestBlock : Nat) (c : Int)
    (hc : s.inspectEvery = c) (hpos : 0 < c) (hbound : c < 2 ^ 63)
    (hblock : latestBlock < 2 ^ 64) :
    ((0 < latestBlock → latestBlock % c.toNat = 0 →
        (s.inspectCh = none →
          handleScannerBlock now latestBlock s =
            ScanResult.done
              { s with
                  latestBlockEventTime := now,
                  inspectCh := some (latestBlock - c.toNat) }
              [LogEvent.triggeringInspection latestBlock
                  (latestBlock - c.toNat),
                LogEvent.inspectionTriggered])
        ∧ (∀ v, s.inspectCh = some v →
            handleScannerBlock now latestBlock s =
              ScanResult.done { s with latestBlockEventTime := now }
                [LogEvent.triggeringInspection latestBlock
                    (latestBlock - c.toNat),
                  LogEvent.alreadyBusy]))
    ∧ (latestBlock % c.toNat ≠ 0 →
        handleScannerBlock now latestBlock s =
          ScanResult.done { s with latestBlockEventTime := now } [])
    ∧ (latestBlock = 0 →
        handleScannerBlock now latestBlock s =
          ScanResult.done { s with latestBlockEventTime := now } [])) := by
  obtain ⟨ch, tms, ce, le⟩ := s
  have hce : c = ce := hc.symm
  subst hce
  have huc : goUint64OfInt c = c.toNat :=
    goUint64OfInt_small c hpos.le (hbound.trans (by norm_num))
  have hucne : c.toNat ≠ 0 := by omega
  refine ⟨?_, ?_, ?_⟩
  · intro hB hmod
    have hge : c.toNat ≤ latestBlock :=
      Nat.le_of_dvd hB (Nat.dvd_of_mod_eq_zero hmod)
    have hsub : goU64Sub latestBlock c.toNat = latestBlock - c.toNat :=
      goU64Sub_no_wrap latestBlock c.toNat hge hblock
    constructor
    · intro hempty
      have hch : ch = none := hempty
      subst hch
      simp [handleScannerBlock, huc, goUMod, hucne, hB, hmod, hsub]
    · intro v hfull
      have hch : ch = some v := hfull
      subst hch
      simp [handleScannerBlock, huc, goUMod, hucne, hB, hmod, hsub]
  · intro hmod
    rcases Nat.eq_zero_or_pos latestBlock with h0 | hB
    · simp [handleScannerBlock, h0]
    · simp [handleScannerBlock, huc, goUMod, hucne, hB, hmod]
  · intro h0
    simp [handleScannerBlock, h0]

/-- Witness for C7 at a concrete input: cadence 10 and signal 100 enqueue
exactly block 90 into the empty slot. -/
theorem c7_scanner_block_cadence_witness :
    handleScannerBlock 50 100 ⟨none, 0, 10, none⟩ =
      ScanResult.done ⟨some (100 - (10 : Int).toNat), 50, 10, none⟩
        [LogEvent.triggeringInspection 100 (100 - (10 : Int).toNat),
          LogEvent.inspectionTriggered] :=
  (((c7_scanner_block_cadence ⟨none, 0, 10, none⟩ 50 100 10 rfl (by decide)
      (by decide) (by decide)).1 (by decide) (by decide)).1 rfl)

/-! ## C10: the cadence mod has no zero guard -/

/-- C10 (confirmed): both `handleScannerBlock` and the watchdog tick
compute `blockNum % uint64(inspectEvery)` with no guard; under the
precondition `inspectEvery > 0` (an in-range Go `int`) the mod-by-zero
panic branch is unreachable on every input, while for `inspectEvery = 0`
the handler panics on any positive latest block and the stalled watchdog
tick panics as soon as dial and block read succeed. -/
theorem c10_no_cadence_zero_guard :
    (∀ (s : InspectorState) (now latestBlock : Nat)
        (dial : Except String Unit) (readBlock : Except String Nat),
        0 < s.inspectEvery → s.inspectEvery < 2 ^ 63 →
        handleScannerBlock now latestBlock s ≠ ScanResult.panicked
        ∧ watchdogTick now dial readBlock s ≠ TickResult.panicked)
    ∧ (∀ (s : InspectorState) (now latestBlock : Nat),
        s.inspectEvery = 0 → 0 < latestBlock →
        handleScannerBlock now latestBlock s = ScanResult.panicked)
    ∧ (∀ (s : InspectorState) (now blockNum : Nat),
        s.inspectEvery = 0 →
        s.latestBlockEventTime + blockEventWaitTimeout < now →
        watchdogTick now (Except.ok ()) (Except.ok blockNum) s =
          TickResult.panicked) := by
  refine ⟨?_, ?_, ?_⟩
  · intro s now latestBlock dial readBlock hpos hbound
    have hne : goUint64OfInt s.inspectEvery ≠ 0 := by
      rw [goUint64OfInt_small s.inspectEvery hpos.le
        (hbound.trans (by norm_num))]
      omega
    constructor
    · by_cases hB : latestBlock > 0
      · by_cases hr : latestBlock % goUint64OfInt s.inspectEvery = 0
        · cases hch : s.inspectCh <;>
            simp [handleScannerBlock, goUMod, hne, hB, hr, hch]
        · simp [handleScannerBlock, goUMod, hne, hB, hr]
      · simp [handleScannerBlock, hB]
    · unfold watchdogTick blockingSend
      by_cases hst : s.latestBlockEventTime + blockEventWaitTimeout < now
      · rw [if_pos hst]
        cases dial with
        | error e => cases s.inspectCh <;> simp
        | ok u =>
          cases readBlock with
          | error e => cases s.inspectCh <;> simp
          | ok b =>
            by_cases hr : b % goUint64OfInt s.inspectEvery = 0
            · cases s.inspectCh <;> simp [goUMod, hne, hr]
            · simp [goUMod, hne, hr]
      · rw [if_neg hst]; simp
  · intro s now latestBlock hzero hB
    simp [handleScannerBlock, goUMod, goUint64OfInt, hzero, hB]
  · intro s now blockNum hzero hst
    simp [watchdogTick, if_pos hst, goUMod, goUint64OfInt, hzero]

/-- Witness for C10 at concrete inputs: cadence 10 never panics on block
7 nor on a stalled tick reading block 3; cadence 0 panics on block 7 and
on a stalled tick reading block 7. -/
theorem c10_no_cadence_zero_guard_witness :
    (handleScannerBlock 5 7 ⟨none, 0, 10, none⟩ ≠ ScanResult.panicked
      ∧ watchdogTick 5 (Except.ok ()) (Except.ok 3) ⟨none, 0, 10, none⟩ ≠
          TickResult.panicked)
    ∧ handleScannerBlock 5 7 ⟨none, 0, 0, none⟩ = ScanResult.panicked
    ∧ watchdogTick 601 (Except.ok ()) (Except.ok 7) ⟨none, 0, 0, none⟩ =
        TickResult.panicked :=
  ⟨c10_no_cadence_zero_guard.1 ⟨none, 0, 10, none⟩ 5 7 (Except.ok ())
      (Except.ok 3) (by decide) (by decide),
    c10_no_cadence_zero_guard.2.1 ⟨none, 0, 0, none⟩ 5 7 rfl (by decide),
    c10_no_cadence_zero_guard.2.2 ⟨none, 0, 0, none⟩ 601 7 rfl (by decide)⟩

/-! ## C4: a stop request with an unknown descriptor -/

/-- The containers a stop request resolves in the table, in request
order. -/
def foundContainers (cs : List DockerContainer) (payload : List AgentConfig) :
    List DockerContainer :=
  payload.filterMap fun a => getContainerUnsafe cs a.containerName

/-- When every resolved container stops successfully, `stopLoop` marks
exactly the resolved containers as stopped, makes one stop call per
resolved container, logs a skip for every unresolved descriptor and a
success for every resolved one, and returns no error. -/
theorem stopLoop_all_ok (rt : RuntimeModel) (cs : List DockerContainer)
    (payload : List AgentConfig)
    (hOk : ∀ c ∈ foundContainers cs payload, rt.stopContainer c.id = none) :
    stopLoop rt cs payload =
      ((foundContainers cs payload).map (fun c => c.id),
        (foundContainers cs payload).map (fun c => RtCall.stopContainer c.id),
        payload.map (fun a =>
          match getContainerUnsafe cs a.containerName with
          | none => LogEvent.stopSkipped a.containerName
          | some _ => LogEvent.stoppedOk a.containerName),
        none) := by
  induction payload with
  | nil => simp [stopLoop, foundContainers]
  | cons a rest ih =>
    cases h : getContainerUnsafe cs a.containerName with
    | none =>
      have hOk2 : ∀ c ∈ foundContainers cs rest, rt.stopContainer c.id = none := by
        intro c hcmem
        exact hOk c (by simp [foundContainers, h] at hcmem ⊢; exact hcmem)
      simp [stopLoop, h, ih hOk2, foundContainers]
    | some ca =>
      have hca : ca ∈ foundContainers cs (a :: rest) := by
        simp [foundContainers, h]
      have hOk2 : ∀ c ∈ foundContainers cs rest, rt.stopContainer c.id = none := by
        intro c hcmem
        refine hOk c ?_
        simp [foundContainers, h] at hcmem ⊢
        exact Or.inr hcmem
      simp [stopLoop, h, hOk ca hca, ih hOk2, foundContainers]

/-- C4 (counterexample): stopping a batch that consists of the single
never-started descriptor `agA` still publishes a "stopped" batch, and
that batch is the incoming payload itself — it contains `agA` rather
than omitting it, contrary to the claim. -/
theorem c4_stop_publishes_full_payload_counterexample :
    (handleAgentStop rtOk [] [agA]).msgs = [BusMsg.stopped [agA]]
    ∧ agA ∈ ([agA] : List AgentConfig)
    ∧ (handleAgentStop rtOk [] [agA]).calls = []
    ∧ (handleAgentStop rtOk [] [agA]).logs =
        [LogEvent.stopSkipped agA.containerName] := by
  refine ⟨rfl, ?_, rfl, rfl⟩
  decide

/-- C4 (amended): for a stop request containing a descriptor whose
container name is absent from the table (and whose other descriptors all
stop successfully): no runtime stop call targets that descriptor — every
stop call stops a table record with a different name — a skip is logged,
and a single status batch equal to the entire incoming payload
(including the absent descriptor) is published on "agents:status:stopped"
because the request is non-empty. -/
theorem c4_amended_stop_skips_unknown (rt : RuntimeModel)
    (cs : List DockerContainer) (payload : List AgentConfig) (a : AgentConfig)
    (hmem : a ∈ payload)
    (habsent : getContainerUnsafe cs a.containerName = none)
    (hOk : ∀ c ∈ foundContainers cs payload, rt.stopContainer c.id = none) :
    (handleAgentStop rt cs payload).err = none
    ∧ (handleAgentStop rt cs payload).msgs = [BusMsg.stopped payload]
    ∧ LogEvent.stopSkipped a.containerName ∈ (handleAgentStop rt cs payload).logs
    ∧ (handleAgentStop rt cs payload).calls =
        (foundContainers cs payload).map (fun c => RtCall.stopContainer c.id)
    ∧ (∀ cid, RtCall.stopContainer cid ∈ (handleAgentStop rt cs payload).calls →
        ∃ c, c ∈ cs ∧ c.id = cid ∧ c.name ≠ a.containerName) := by
  have hloop := stopLoop_all_ok rt cs payload hOk
  have hlen : payload.length > 0 := List.length_pos.mpr (List.ne_nil_of_mem hmem)
  refine ⟨?_, ?_, ?_, ?_, ?_⟩
  · simp [handleAgentStop, hloop]
  · simp [handleAgentStop, hloop, hlen]
  · simp only [handleAgentStop, hloop]
    have : LogEvent.stopSkipped a.containerName =
        (fun a : AgentConfig =>
          match getContainerUnsafe cs a.containerName with
          | none => LogEvent.stopSkipped a.containerName
          | some _ => LogEvent.stoppedOk a.containerName) a := by
      simp [habsent]
    rw [this]
    exact List.mem_map_of_mem _ hmem
  · simp [handleAgentStop, hloop]
  · intro cid hcall
    simp only [handleAgentStop, hloop] at hcall
    simp only [List.mem_map] at hcall
    obtain ⟨c, hcmem, hceq⟩ := hcall
    obtain ⟨b, hbmem, hbfind⟩ := List.mem_filterMap.mp hcmem
    refine ⟨c, List.mem_of_find?_eq_some hbfind, by injection hceq, ?_⟩
    intro hname
    have hnone := List.find?_eq_none.mp habsent c
      (List.mem_of_find?_eq_some hbfind)
    simp [hname] at hnone

/-- Witness for the amended C4 at a concrete input: request `[agA, agB]`
against a table holding only `agB`'s record. -/
theorem c4_amended_stop_skips_unknown_witness :
    (handleAgentStop rtOk [⟨"idB", agB.containerName⟩] [agA, agB]).err = none
    ∧ (handleAgentStop rtOk [⟨"idB", agB.containerName⟩] [agA, agB]).msgs =
        [BusMsg.stopped [agA, agB]]
    ∧ LogEvent.stopSkipped agA.containerName ∈
        (handleAgentStop rtOk [⟨"idB", agB.containerName⟩] [agA, agB]).logs
    ∧ (handleAgentStop rtOk [⟨"idB", agB.containerName⟩] [agA, agB]).calls =
        (foundContainers [⟨"idB", agB.containerName⟩] [agA, agB]).map
          (fun c => RtCall.stopContainer c.id) :=
  have h := c4_amended_stop_skips_unknown rtOk [⟨"idB", agB.containerName⟩]
    [agA, agB] agA (by decide) (by decide) (by decide)
  ⟨h.1, h.2.1, h.2.2.1, h.2.2.2.1⟩

/-! ## C8: network attachment of the shared containers -/

/-- C8 (confirmed): after the agent container starts, both shared
infrastructure containers are attached to the agent's private network.
An "already attached" outcome is skipped and not treated as failure,
while any other attachment error aborts only this agent's start — no
table record is added and the calls stop there — and the run handler
logs the failure, publishes no "running" status for this descriptor, and
continues with the rest of the batch against the unchanged table. -/
theorem c8_attach_shared_containers (rt : RuntimeModel)
    (scannerID jsonRpcID nwID cid : String) (cs : List DockerContainer)
    (a : AgentConfig) (rest : List AgentConfig)
    (hImg : rt.ensureImage a.image = none)
    (hNet : rt.createNetwork a.containerName = Except.ok nwID)
    (hStart : rt.startContainer a.containerName a.image = Except.ok cid) :
    ((rt.attachNetwork scannerID nwID = AttachOutcome.ok ∨
        rt.attachNetwork scannerID nwID = AttachOutcome.alreadyExists) →
      (rt.attachNetwork jsonRpcID nwID = AttachOutcome.ok ∨
        rt.attachNetwork jsonRpcID nwID = AttachOutcome.alreadyExists) →
      startAgent rt scannerID jsonRpcID cs a =
        ⟨cs ++ [⟨cid, a.containerName⟩],
          [RtCall.ensureImage a.image, RtCall.createNetwork a.containerName,
            RtCall.startContainer a.containerName a.image,
            RtCall.attachNetwork scannerID nwID,
            RtCall.attachNetwork jsonRpcID nwID], none⟩)
    ∧ (∀ e, rt.attachNetwork scannerID nwID = AttachOutcome.failure e →
        startAgent rt scannerID jsonRpcID cs a =
          ⟨cs, [RtCall.ensureImage a.image, RtCall.createNetwork a.containerName,
            RtCall.startContainer a.containerName a.image,
            RtCall.attachNetwork scannerID nwID], some e⟩)
    ∧ (∀ e, (rt.attachNetwork scannerID nwID = AttachOutcome.ok ∨
          rt.attachNetwork scannerID nwID = AttachOutcome.alreadyExists) →
        rt.attachNetwork jsonRpcID nwID = AttachOutcome.failure e →
        (startAgent rt scannerID jsonRpcID cs a).err = some e
        ∧ (startAgent rt scannerID jsonRpcID cs a).containers = cs)
    ∧ ((startAgent rt scannerID jsonRpcID cs a).err.isSome →
        getContainerUnsafe cs a.containerName = none →
        handleAgentRunAux rt scannerID jsonRpcID (a :: rest) cs =
          ⟨(handleAgentRunAux rt scannerID jsonRpcID rest cs).state,
            (startAgent rt scannerID jsonRpcID cs a).calls ++
              (handleAgentRunAux rt scannerID jsonRpcID rest cs).calls,
            (handleAgentRunAux rt scannerID jsonRpcID rest cs).msgs,
            LogEvent.startFailed a.containerName ::
              (handleAgentRunAux rt scannerID jsonRpcID rest cs).logs⟩) := by
  refine ⟨?_, ?_, ?_, ?_⟩
  · intro hsc hjr
    rcases hsc with hsc | hsc <;> rcases hjr with hjr | hjr <;>
      simp [startAgent, hImg, hNet, hStart, hsc, hjr]
  · intro e hsc
    simp [startAgent, hImg, hNet, hStart, hsc]
  · intro e hsc hjr
    rcases hsc with hsc | hsc <;>
      simp [startAgent, hImg, hNet, hStart, hsc, hjr]
  · intro herr habsent
    obtain ⟨e, he⟩ := Option.isSome_iff_exists.mp herr
    simp [handleAgentRunAux, habsent, he]

/-- Runtime for the C8 witness: every call succeeds, but attaching the
scanner container ("sc") reports "already attached" and attaching any
other container to the network of agent `agB` fails. -/
def rtAttach : RuntimeModel :=
  { rtOk with
      attachNetwork := fun c nw =>
        if c = "sc" then AttachOutcome.alreadyExists
        else if nw = String.append "nw-" agB.containerName then
          AttachOutcome.failure "attach exploded"
        else AttachOutcome.ok }

/-- Witness for C8 at concrete inputs: `agA` starts fine with the
scanner's "already attached" tolerated; `agB`'s proxy attachment fails,
so its start aborts with no record, and the run handler logs the failure
and moves on. -/
theorem c8_attach_shared_containers_witness :
    startAgent rtAttach "sc" "jr" [] agA =
      ⟨[⟨String.append "id-" agA.containerName, agA.containerName⟩],
        [RtCall.ensureImage agA.image, RtCall.createNetwork agA.containerName,
          RtCall.startContainer agA.containerName agA.image,
          RtCall.attachNetwork "sc" (String.append "nw-" agA.containerName),
          RtCall.attachNetwork "jr" (String.append "nw-" agA.containerName)],
        none⟩
    ∧ (startAgent rtAttach "sc" "jr" [] agB).err = some "attach exploded"
    ∧ (startAgent rtAttach "sc" "jr" [] agB).containers = []
    ∧ handleAgentRunAux rtAttach "sc" "jr" [agB] [] =
        ⟨(handleAgentRunAux rtAttach "sc" "jr" [] []).state,
          (startAgent rtAttach "sc" "jr" [] agB).calls ++
            (handleAgentRunAux rtAttach "sc" "jr" [] []).calls,
          (handleAgentRunAux rtAttach "sc" "jr" [] []).msgs,
          LogEvent.startFailed agB.containerName ::
            (handleAgentRunAux rtAttach "sc" "jr" [] []).logs⟩ :=
  have hA := c8_attach_shared_containers rtAttach "sc" "jr"
    (String.append "nw-" agA.containerName)
    (String.append "id-" agA.containerName) [] agA [] rfl rfl rfl
  have hB := c8_attach_shared_containers rtAttach "sc" "jr"
    (String.append "nw-" agB.containerName)
    (String.append "id-" agB.containerName) [] agB [] rfl rfl rfl
  have hBfail := hB.2.2.1 "attach exploded" (Or.inr (by decide)) (by decide)
  ⟨hA.1 (Or.inr (by decide)) (Or.inl (by decide)),
    hBfail.1, hBfail.2,
    hB.2.2.2 (by rw [hBfail.1]; rfl) (by decide)⟩

/-! ## C6: idempotence of the run handler -/

/-- Does a runtime call start a container with the given name? -/
def isStartCallFor (name : String) : RtCall → Bool
  | RtCall.startContainer n _ => n == name
  | _ => false

/-- Is a bus message the singleton "running" status of the given
descriptor, as published by `handleAgentRun`? -/
def isRunningMsgFor (a : AgentConfig) : BusMsg → Bool
  | BusMsg.running batch => decide (batch = [a])
  | _ => false

/-- The calls a run makes for a batch of fresh descriptors on a runtime
where every call succeeds (network and container IDs given by `netOf` and
`idOf`): five calls per descriptor, in order. -/
def freshStartCalls (scannerID jsonRpcID : String) (netOf : String → String) :
    List AgentConfig → List RtCall
  | [] => []
  | a :: rest =>
    RtCall.ensureImage a.image :: RtCall.createNetwork a.containerName ::
      RtCall.startContainer a.containerName a.image ::
      RtCall.attachNetwork scannerID (netOf a.containerName) ::
      RtCall.attachNetwork jsonRpcID (netOf a.containerName) ::
      freshStartCalls scannerID jsonRpcID netOf rest

/-- Lookup distributes over table append. -/
theorem getContainerUnsafe_append (cs ds : List DockerContainer)
    (name : String) :
    getContainerUnsafe (cs ++ ds) name =
      (getContainerUnsafe cs name).or (getContainerUnsafe ds name) := by
  simp [getContainerUnsafe, List.find?_append]

/-- On a runtime where every call succeeds, `startAgent` performs its
five calls, returns no error and appends the new record. -/
theorem startAgent_all_ok (rt : RuntimeModel) (scannerID jsonRpcID : String)
    (netOf idOf : String → String)
    (hImg : ∀ img, rt.ensureImage img = none)
    (hNet : ∀ n, rt.createNetwork n = Except.ok (netOf n))
    (hStart : ∀ n img, rt.startContainer n img = Except.ok (idOf n))
    (hAtt : ∀ c nw e, rt.attachNetwork c nw ≠ AttachOutcome.failure e)
    (cs : List DockerContainer) (a : AgentConfig) :
    startAgent rt scannerID jsonRpcID cs a =
      ⟨cs ++ [⟨idOf a.containerName, a.containerName⟩],
        [RtCall.ensureImage a.image, RtCall.createNetwork a.containerName,
          RtCall.startContainer a.containerName a.image,
          RtCall.attachNetwork scannerID (netOf a.containerName),
          RtCall.attachNetwork jsonRpcID (netOf a.containerName)],
        none⟩ := by
  cases hsc : rt.attachNetwork scannerID (netOf a.containerName) with
  | failure e => exact absurd hsc (hAtt _ _ e)
  | ok =>
    cases hjr : rt.attachNetwork jsonRpcID (netOf a.containerName) with
    | failure e => exact absurd hjr (hAtt _ _ e)
    | ok => simp [startAgent, hImg, hNet, hStart, hsc, hjr]
    | alreadyExists => simp [startAgent, hImg, hNet, hStart, hsc, hjr]
  | alreadyExists =>
    cases hjr : rt.attachNetwork jsonRpcID (netOf a.containerName) with
    | failure e => exact absurd hjr (hAtt _ _ e)
    | ok => simp [startAgent, hImg, hNet, hStart, hsc, hjr]
    | alreadyExists => simp [startAgent, hImg, hNet, hStart, hsc, hjr]

/-- A run over descriptors none of which is in the table, with pairwise
distinct container names, on an all-success runtime: every descriptor is
started and recorded, one "running" status each, no log lines. -/
theorem handleAgentRunAux_fresh (rt : RuntimeModel)
    (scannerID jsonRpcID : String) (netOf idOf : String → String)
    (hImg : ∀ img, rt.ensureImage img = none)
    (hNet : ∀ n, rt.createNetwork n = Except.ok (netOf n))
    (hStart : ∀ n img, rt.startContainer n img = Except.ok (idOf n))
    (hAtt : ∀ c nw e, rt.attachNetwork c nw ≠ AttachOutcome.failure e) :
    ∀ (payload : List AgentConfig) (cs : List DockerContainer),
      (∀ a ∈ payload, getContainerUnsafe cs a.containerName = none) →
      payload.Pairwise (fun x y => x.containerName ≠ y.containerName) →
      handleAgentRunAux rt scannerID jsonRpcID payload cs =
        ⟨cs ++ payload.map (fun a => ⟨idOf a.containerName, a.containerName⟩),
          freshStartCalls scannerID jsonRpcID netOf payload,
          payload.map (fun a => BusMsg.running [a]), []⟩ := by
  intro payload
  induction payload with
  | nil => intro cs _ _; simp [handleAgentRunAux, freshStartCalls]
  | cons a rest ih =>
    intro cs hFresh hDist
    have ha := hFresh a (List.mem_cons_self a rest)
    have hstart := startAgent_all_ok rt scannerID jsonRpcID netOf idOf
      hImg hNet hStart hAtt cs a
    have hFresh2 : ∀ b ∈ rest,
        getContainerUnsafe
          (cs ++ [⟨idOf a.containerName, a.containerName⟩])
          b.containerName = none := by
      intro b hb
      rw [getContainerUnsafe_append, hFresh b (List.mem_cons_of_mem a hb)]
      have hne : a.containerName ≠ b.containerName :=
        (List.pairwise_cons.mp hDist).1 b hb
      simp [getContainerUnsafe, hne]
    have hDist2 := (List.pairwise_cons.mp hDist).2
    simp [handleAgentRunAux, ha, hstart, ih _ hFresh2 hDist2, freshStartCalls]

/-- A run over descriptors all of which are already in the table: no
runtime calls, one "running" status and one "already running" log line
per descriptor, table unchanged. -/
theorem handleAgentRunAux_present (rt : RuntimeModel)
    (scannerID jsonRpcID : String) :
    ∀ (payload : List AgentConfig) (cs : List DockerContainer),
      (∀ a ∈ payload, (getContainerUnsafe cs a.containerName).isSome) →
      handleAgentRunAux rt scannerID jsonRpcID payload cs =
        ⟨cs, [], payload.map (fun a => BusMsg.running [a]),
          payload.map (fun a => LogEvent.alreadyRunning a.containerName)⟩ := by
  intro payload
  induction payload with
  | nil => intro cs _; simp [handleAgentRunAux]
  | cons a rest ih =>
    intro cs h
    simp [handleAgentRunAux, h a (List.mem_cons_self a rest),
      ih cs (fun b hb => h b (List.mem_cons_of_mem a hb))]

/-- A freshly recorded batch resolves every one of its descriptors. -/
theorem getContainerUnsafe_new_records (idOf : String → String)
    (payload : List AgentConfig) (a : AgentConfig) (hmem : a ∈ payload) :
    (getContainerUnsafe
      (payload.map fun b => ⟨idOf b.containerName, b.containerName⟩)
      a.containerName).isSome := by
  rw [getContainerUnsafe, List.find?_isSome]
  exact ⟨⟨idOf a.containerName, a.containerName⟩,
    List.mem_map_of_mem _ hmem, by simp⟩

/-- In a fresh-start call list, no descriptor outside the batch's names
has a start call. -/
theorem freshStartCalls_filter_not_mem (scannerID jsonRpcID : String)
    (netOf : String → String) (name : String) :
    ∀ payload : List AgentConfig, (∀ b ∈ payload, b.containerName ≠ name) →
      (freshStartCalls scannerID jsonRpcID netOf payload).filter
        (isStartCallFor name) = [] := by
  intro payload
  induction payload with
  | nil => intro _; rfl
  | cons b rest ih =>
    intro h
    have hb := h b (List.mem_cons_self b rest)
    simp [freshStartCalls, List.filter_cons, isStartCallFor, hb,
      ih (fun x hx => h x (List.mem_cons_of_mem b hx))]

/-- In a fresh-start call list over pairwise-distinct names, each batch
member has exactly its own start call. -/
theorem freshStartCalls_filter_mem (scannerID jsonRpcID : String)
    (netOf : String → String) :
    ∀ (payload : List AgentConfig) (a : AgentConfig), a ∈ payload →
      payload.Pairwise (fun x y => x.containerName ≠ y.containerName) →
      (freshStartCalls scannerID jsonRpcID netOf payload).filter
        (isStartCallFor a.containerName) =
        [RtCall.startContainer a.containerName a.image] := by
  intro payload
  induction payload with
  | nil => intro a h _; cases h
  | cons b rest ih =>
    intro a hmem hdist
    rcases List.mem_cons.mp hmem with rfl | h2
    · have hrest : ∀ x ∈ rest, x.containerName ≠ a.containerName :=
        fun x hx hx2 => (List.pairwise_cons.mp hdist).1 x hx hx2.symm
      simp [freshStartCalls, List.filter_cons, isStartCallFor,
        freshStartCalls_filter_not_mem scannerID jsonRpcID netOf
          a.containerName rest hrest]
    · have hbne : b.containerName ≠ a.containerName :=
        (List.pairwise_cons.mp hdist).1 a h2
      simp [freshStartCalls, List.filter_cons, isStartCallFor, hbne,
        ih a h2 (List.pairwise_cons.mp hdist).2]

/-- No "running" status for a descriptor whose name is outside the
batch's names. -/
theorem runningMsgs_filter_not_mem (a : AgentConfig) :
    ∀ payload : List AgentConfig,
      (∀ b ∈ payload, b.containerName ≠ a.containerName) →
      (payload.map fun b => BusMsg.running [b]).filter
        (isRunningMsgFor a) = [] := by
  intro payload
  induction payload with
  | nil => intro _; rfl
  | cons b rest ih =>
    intro h
    have hb : b ≠ a := fun he =>
      h b (List.mem_cons_self b rest) (by rw [he])
    simp [List.filter_cons, isRunningMsgFor, hb,
      ih (fun x hx => h x (List.mem_cons_of_mem b hx))]

/-- Exactly one "running" status per batch member in a single run over
pairwise-distinct names. -/
theorem runningMsgs_filter_mem :
    ∀ (payload : List AgentConfig) (a : AgentConfig), a ∈ payload →
      payload.Pairwise (fun x y => x.containerName ≠ y.containerName) →
      (payload.map fun b => BusMsg.running [b]).filter (isRunningMsgFor a) =
        [BusMsg.running [a]] := by
  intro payload
  induction payload with
  | nil => intro a h _; cases h
  | cons b rest ih =>
    intro a hmem hdist
    rcases List.mem_cons.mp hmem with rfl | h2
    · have hrest : ∀ x ∈ rest, x.containerName ≠ a.containerName :=
        fun x hx hx2 => (List.pairwise_cons.mp hdist).1 x hx hx2.symm
      simp [List.filter_cons, isRunningMsgFor,
        runningMsgs_filter_not_mem a rest hrest]
    · have hbne : b ≠ a := fun he =>
        (List.pairwise_cons.mp hdist).1 a h2 (by rw [he])
      simp [List.filter_cons, isRunningMsgFor, hbne,
        ih a h2 (List.pairwise_cons.mp hdist).2]

/-- The names of a batch of freshly created records are the batch's
container names. -/
theorem new_records_names (idOf : String → String)
    (payload : List AgentConfig) :
    ((payload.map fun a =>
      (⟨idOf a.containerName, a.containerName⟩ : DockerContainer)).map
        fun c => c.name) = payload.map fun a => a.containerName := by
  induction payload with
  | nil => rfl
  | cons a rest ih => simp [ih]

/-- C6 (confirmed): for a batch with pairwise-distinct container names,
none of which is recorded yet, on a runtime where every call succeeds:
the first run starts and records each descriptor and publishes one
"running" status each; the second run over the same batch makes no
runtime calls at all, leaves the table unchanged and publishes one more
"running" status each; across both runs each descriptor gets exactly one
start-container call and exactly two "running" publications; and the
resulting table still has pairwise-distinct container names (at most one
record per name). -/
theorem c6_run_idempotent (rt : RuntimeModel) (scannerID jsonRpcID : String)
    (netOf idOf : String → String)
    (hImg : ∀ img, rt.ensureImage img = none)
    (hNet : ∀ n, rt.createNetwork n = Except.ok (netOf n))
    (hStart : ∀ n img, rt.startContainer n img = Except.ok (idOf n))
    (hAtt : ∀ c nw e, rt.attachNetwork c nw ≠ AttachOutcome.failure e)
    (payload : List AgentConfig) (cs : List DockerContainer)
    (hFresh : ∀ a ∈ payload, getContainerUnsafe cs a.containerName = none)
    (hDistinct : payload.Pairwise fun x y =>
      x.containerName ≠ y.containerName) :
    handleAgentRun rt scannerID jsonRpcID cs payload =
      ⟨cs ++ payload.map (fun a => ⟨idOf a.containerName, a.containerName⟩),
        freshStartCalls scannerID jsonRpcID netOf payload,
        payload.map (fun a => BusMsg.running [a]), []⟩
    ∧ handleAgentRun rt scannerID jsonRpcID
        (handleAgentRun rt scannerID jsonRpcID cs payload).state payload =
      ⟨(handleAgentRun rt scannerID jsonRpcID cs payload).state, [],
        payload.map (fun a => BusMsg.running [a]),
        payload.map (fun a => LogEvent.alreadyRunning a.containerName)⟩
    ∧ (∀ a ∈ payload,
        (((handleAgentRun rt scannerID jsonRpcID cs payload).calls ++
          (handleAgentRun rt scannerID jsonRpcID
            (handleAgentRun rt scannerID jsonRpcID cs payload).state
            payload).calls).filter (isStartCallFor a.containerName)).length = 1
        ∧ (((handleAgentRun rt scannerID jsonRpcID cs payload).msgs ++
            (handleAgentRun rt scannerID jsonRpcID
              (handleAgentRun rt scannerID jsonRpcID cs payload).state
              payload).msgs).filter (isRunningMsgFor a)).length = 2)
    ∧ ((cs.map fun c => c.name).Nodup →
        (((handleAgentRun rt scannerID jsonRpcID cs payload).state.map
          fun c => c.name).Nodup)) := by
  have h1 := handleAgentRunAux_fresh rt scannerID jsonRpcID netOf idOf
    hImg hNet hStart hAtt payload cs hFresh hDistinct
  have hPresent : ∀ a ∈ payload,
      (getContainerUnsafe
        (cs ++ payload.map fun b => ⟨idOf b.containerName, b.containerName⟩)
        a.containerName).isSome := by
    intro a ha
    rw [getContainerUnsafe_append, hFresh a ha]
    simpa using getContainerUnsafe_new_records idOf payload a ha
  have h2 := handleAgentRunAux_present rt scannerID jsonRpcID payload
    (cs ++ payload.map fun b => ⟨idOf b.containerName, b.containerName⟩)
    hPresent
  have hrun1 : handleAgentRun rt scannerID jsonRpcID cs payload =
      ⟨cs ++ payload.map (fun a => ⟨idOf a.containerName, a.containerName⟩),
        freshStartCalls scannerID jsonRpcID netOf payload,
        payload.map (fun a => BusMsg.running [a]), []⟩ := h1
  have hstate : (handleAgentRun rt scannerID jsonRpcID cs payload).state =
      cs ++ payload.map (fun a => ⟨idOf a.containerName, a.containerName⟩) := by
    rw [hrun1]
  have hcalls1 : (handleAgentRun rt scannerID jsonRpcID cs payload).calls =
      freshStartCalls scannerID jsonRpcID netOf payload := by
    rw [hrun1]
  have hmsgs1 : (handleAgentRun rt scannerID jsonRpcID cs payload).msgs =
      payload.map (fun a => BusMsg.running [a]) := by
    rw [hrun1]
  have hrun2 : handleAgentRun rt scannerID jsonRpcID
      (handleAgentRun rt scannerID jsonRpcID cs payload).state payload =
      ⟨(handleAgentRun rt scannerID jsonRpcID cs payload).state, [],
        payload.map (fun a => BusMsg.running [a]),
        payload.map (fun a => LogEvent.alreadyRunning a.containerName)⟩ := by
    rw [hstate]
    exact h2
  refine ⟨hrun1, hrun2, ?_, ?_⟩
  · intro a ha
    constructor
    · rw [hcalls1, hrun2]
      simp [List.filter_append,
        freshStartCalls_filter_mem scannerID jsonRpcID netOf payload a
          ha hDistinct]
    · rw [hmsgs1, hrun2]
      simp [List.filter_append,
        runningMsgs_filter_mem payload a ha hDistinct]
  · intro hcs
    rw [hstate, List.map_append, new_records_names, List.nodup_append]
    refine ⟨hcs, List.pairwise_map.mpr hDistinct, ?_⟩
    intro x hx hx2
    obtain ⟨a, ha, rfl⟩ := List.mem_map.mp hx2
    obtain ⟨c, hc, hcx⟩ := List.mem_map.mp hx
    have hnone := List.find?_eq_none.mp (hFresh a ha) c hc
    simp [hcx] at hnone

/-- Witness for C6 at a concrete input: running `[agA, agB]` twice from
an empty table on the all-success runtime. -/
theorem c6_run_idempotent_witness :
    handleAgentRun rtOk "sc" "jr" [] [agA, agB] =
      ⟨[] ++ [agA, agB].map (fun a =>
          ⟨String.append "id-" a.containerName, a.containerName⟩),
        freshStartCalls "sc" "jr" (fun n => String.append "nw-" n)
          [agA, agB],
        [agA, agB].map (fun a => BusMsg.running [a]), []⟩
    ∧ handleAgentRun rtOk "sc" "jr"
        (handleAgentRun rtOk "sc" "jr" [] [agA, agB]).state [agA, agB] =
      ⟨(handleAgentRun rtOk "sc" "jr" [] [agA, agB]).state, [],
        [agA, agB].map (fun a => BusMsg.running [a]),
        [agA, agB].map (fun a => LogEvent.alreadyRunning a.containerName)⟩
    ∧ ((((handleAgentRun rtOk "sc" "jr" [] [agA, agB]).calls ++
          (handleAgentRun rtOk "sc" "jr"
            (handleAgentRun rtOk "sc" "jr" [] [agA, agB]).state
            [agA, agB]).calls).filter
          (isStartCallFor agA.containerName)).length = 1
        ∧ (((handleAgentRun rtOk "sc" "jr" [] [agA, agB]).msgs ++
            (handleAgentRun rtOk "sc" "jr"
              (handleAgentRun rtOk "sc" "jr" [] [agA, agB]).state
              [agA, agB]).msgs).filter (isRunningMsgFor agA)).length = 2)
    ∧ (((handleAgentRun rtOk "sc" "jr" [] [agA, agB]).state.map
        fun c => c.name).Nodup) :=
  have h := c6_run_idempotent rtOk "sc" "jr"
    (fun n => String.append "nw-" n) (fun n => String.append "id-" n)
    (fun _ => rfl) (fun _ => rfl) (fun _ _ => rfl)
    (by intro c nw e hcon; simp [rtOk] at hcon)
    [agA, agB] [] (fun _ _ => rfl) (by decide)
  ⟨h.1, h.2.1, h.2.2.1 agA (by decide), h.2.2.2 List.nodup_nil⟩

end Forta
